import Mathlib

/-!
Verification of the webhook delivery and retry engine of the Uber Eats mock
marketplace server (`src/uber_mock_server/app.py`).

The Python source is shallowly embedded: the SQLite `webhook_events` table is a
list of `WebhookEvent` records, SQL `UPDATE ... WHERE event_id = ?` statements
become `updateWhere`, timestamps are natural numbers (epoch seconds), the HTTP
layer is an `Outcome` oracle (one outcome per attempt number), and the
HMAC-SHA256 primitive from Python's `hmac`/`hashlib` standard library is an
abstract function parameter `hmacHex : key → message → hex digest` (the
primitive itself is library code, not code of this repository).
-/

namespace UberMock

/-- Delivery status of a webhook event row: the `status` column of the
`webhook_events` table (`'pending'`, `'retrying'`, `'delivered'`, `'failed'`). -/
inductive WStatus
  | pending
  | retrying
  | delivered
  | failed
deriving DecidableEq, Repr

/-- The `meta` object built in `trigger_webhook` (app.py lines 407-411):
`user_id` is the store id, `resource_id` the order id (else store id), and
`status` is `data.get('status')` from the caller-supplied dict. -/
structure MetaObj where
  user_id : String
  resource_id : String
  status : Option String
deriving DecidableEq, Repr

/-- The canonical webhook payload dict built in `trigger_webhook`
(app.py lines 401-412), in the source's key order. -/
structure Payload where
  event_id : String
  event_type : String
  event_time : Nat
  resource_id : String
  resource_href : Option String
  meta : MetaObj
deriving DecidableEq, Repr

/-- A row of the `webhook_events` table (schema at app.py lines 192-207).
The `payload` column stores the JSON serialization `dumpsPayload payload`;
we keep the structured value, since `json.loads ∘ json.dumps` is the identity
on these dicts and `json.dumps` is injective on them, so the structured value
and the stored text determine each other. -/
structure WebhookEvent where
  event_id : String
  event_type : String
  store_id : String
  order_id : Option String
  payload : Payload
  webhook_url : String
  status : WStatus
  attempts : Nat
  last_attempt_at : Option Nat
  next_retry_at : Option Nat
  created_at : Nat
deriving DecidableEq, Repr

/-- The `webhook_events` table. -/
abbrev EventStore := List WebhookEvent

/-- JSON string-character escaping as done by Python's `json.dumps` for the
characters that can occur in this server's ids, URLs and statuses. -/
def jsonEscapeChar (c : Char) : String :=
  if c = '\"' then "\\\""
  else if c = '\\' then "\\\\"
  else if c = '\n' then "\\n"
  else if c = '\t' then "\\t"
  else if c = '\r' then "\\r"
  else String.singleton c

/-- JSON escaping of a whole string. -/
def jsonEscape (s : String) : String :=
  String.join (s.toList.map jsonEscapeChar)

/-- A JSON string literal. -/
def jstr (s : String) : String :=
  "\"" ++ jsonEscape s ++ "\""

/-- A JSON string-or-null literal (Python `None` serializes as `null`). -/
def jopt : Option String → String
  | none => "null"
  | some s => jstr s

/-- `json.dumps` of the `meta` object, with Python's default separators. -/
def dumpsMeta (m : MetaObj) : String :=
  "\x7b\"user_id\": " ++ jstr m.user_id ++
    ", \"resource_id\": " ++ jstr m.resource_id ++
    ", \"status\": " ++ jopt m.status ++ "\x7d"

/-- `json.dumps` of the webhook payload dict, with Python's default separators
and the insertion order of app.py lines 401-412. -/
def dumpsPayload (p : Payload) : String :=
  "\x7b\"event_id\": " ++ jstr p.event_id ++
    ", \"event_type\": " ++ jstr p.event_type ++
    ", \"event_time\": " ++ toString p.event_time ++
    ", \"resource_id\": " ++ jstr p.resource_id ++
    ", \"resource_href\": " ++ jopt p.resource_href ++
    ", \"meta\": " ++ dumpsMeta p.meta ++ "\x7d"

/-- `WEBHOOK_SECRET` (app.py line 66, default value). -/
def WEBHOOK_SECRET : String := "demo_webhook_secret"

/-- `BASE_URL` (app.py line 67, default value). -/
def BASE_URL : String := "http://localhost:8000"

/-- `create_webhook_signature` (app.py lines 299-301):
`hmac.new(secret.encode(), payload.encode(), hashlib.sha256).hexdigest()`.
`hmacHex` abstracts the HMAC-SHA256 hex-digest primitive as
`hmacHex key message`; the source keys it with the secret and hashes the
serialized payload. -/
def create_webhook_signature (hmacHex : String → String → String)
    (payload : String) (secret : String) : String :=
  hmacHex secret payload

/-- One outbound HTTP POST as issued by `send_webhook_with_retry`
(app.py lines 308-316): URL, serialized JSON body, `Content-Type` header,
the signature header (name, value), and the client timeout in seconds. -/
structure HttpRequest where
  url : String
  body : String
  contentType : String
  sigHeader : String × String
  timeoutSecs : Nat
deriving DecidableEq, Repr

/-- The request constructed at app.py lines 309-316: headers
`Content-Type: application/json` and `X-Uber-Signature: <hex hmac>`, body the
payload serialized by `json.dumps`, `httpx.AsyncClient(timeout=10.0)`. -/
def mkWebhookRequest (hmacHex : String → String → String)
    (url : String) (p : Payload) : HttpRequest :=
  { url := url
    body := dumpsPayload p
    contentType := "application/json"
    sigHeader := ("X-Uber-Signature",
      create_webhook_signature hmacHex (dumpsPayload p) WEBHOOK_SECRET)
    timeoutSecs := 10 }

/-- Result of one HTTP POST attempt: either a response with a status code, or
an exception from the client (timeout, connection error). -/
inductive Outcome
  | response (status : Nat)
  | exception
deriving DecidableEq, Repr

/-- The success test at app.py line 318: `response.status_code == 200`; an
exception (timeout/connection error) never reaches that test. -/
def isSuccess : Outcome → Bool
  | .response s => s == 200
  | .exception => false

/-- `max_attempts = 3` (app.py line 306). -/
def max_attempts : Nat := 3

/-- SQL `UPDATE webhook_events SET ... WHERE event_id = ?`: apply `f` to every
row whose `event_id` matches. -/
def updateWhere (db : EventStore) (eid : String)
    (f : WebhookEvent → WebhookEvent) : EventStore :=
  db.map fun e => if e.event_id == eid then f e else e

/-- The delivered update (app.py lines 322-327):
`SET status = 'delivered', attempts = ?`. -/
def markDelivered (db : EventStore) (eid : String) (attempt : Nat) : EventStore :=
  updateWhere db eid fun e => { e with status := .delivered, attempts := attempt }

/-- The retrying update (app.py lines 343-348): `SET attempts = ?,
last_attempt_at = datetime('now'), next_retry_at = ?, status = 'retrying'`. -/
def markRetrying (db : EventStore) (eid : String) (attempt : Nat)
    (now : Nat) (next : Nat) : EventStore :=
  updateWhere db eid fun e =>
    { e with attempts := attempt, last_attempt_at := some now,
             next_retry_at := some next, status := .retrying }

/-- The failed update (app.py lines 358-362):
`SET status = 'failed', attempts = ?`. -/
def markFailed (db : EventStore) (eid : String) (attempt : Nat) : EventStore :=
  updateWhere db eid fun e => { e with status := .failed, attempts := attempt }

/-- The stored `attempts` value of the row with the given event id
(0 if the row is absent). -/
def attemptsIn (db : EventStore) (eid : String) : Nat :=
  ((db.find? fun e => e.event_id == eid).map (·.attempts)).getD 0

/-- Result of one attempt body of `send_webhook_with_retry` (app.py lines
308-363 without the recursive call): the table after the commit, the request
that was POSTed, and the follow-up the code schedules (`await asyncio.sleep`
then recursion): `some (wake time, next attempt number)`, or `none` when the
event reached a terminal status. -/
structure StepResult where
  db : EventStore
  request : HttpRequest
  followUp : Option (Nat × Nat)
deriving Repr

/-- One delivery attempt (app.py lines 308-363, minus the recursive call at
line 353): POST, then commit exactly one of the three updates — delivered on
HTTP 200; retrying with `next_retry_at = now + 2 ** attempt` when the attempt
failed and `attempt < max_attempts`; failed otherwise. -/
def webhookAttempt (hmacHex : String → String → String) (out : Outcome)
    (db : EventStore) (now : Nat) (event_id url : String) (p : Payload)
    (attempt : Nat) : StepResult :=
  let req := mkWebhookRequest hmacHex url p
  if isSuccess out then
    { db := markDelivered db event_id attempt, request := req, followUp := none }
  else if attempt < max_attempts then
    let delay := 2 ^ attempt
    { db := markRetrying db event_id attempt now (now + delay), request := req,
      followUp := some (now + delay, attempt + 1) }
  else
    { db := markFailed db event_id attempt, request := req, followUp := none }

/-- Result of a full `send_webhook_with_retry` chain: the table states after
each commit (in order), the POSTs issued (in order), and the final table. -/
structure ChainResult where
  dbTrace : List EventStore
  posts : List HttpRequest
  db : EventStore
deriving Repr

/-- `send_webhook_with_retry` (app.py lines 304-363): perform one attempt;
when it failed and `attempt < max_attempts`, sleep `2 ** attempt` seconds and
recurse with `attempt + 1` (line 352-353), so the recursive call runs at time
`now + 2 ^ attempt`; otherwise stop (the event is terminal). The `oracle`
gives the HTTP outcome of the POST at each attempt number. -/
def send_webhook_with_retry (hmacHex : String → String → String)
    (oracle : Nat → Outcome) (db : EventStore) (now : Nat)
    (event_id url : String) (p : Payload) (attempt : Nat) : ChainResult :=
  if h : attempt < max_attempts ∧ ¬ isSuccess (oracle attempt) then
    let rest := send_webhook_with_retry hmacHex oracle
      (webhookAttempt hmacHex (oracle attempt) db now event_id url p attempt).db
      (now + 2 ^ attempt) event_id url p (attempt + 1)
    { dbTrace :=
        (webhookAttempt hmacHex (oracle attempt) db now event_id url p attempt).db
          :: rest.dbTrace
      posts :=
        (webhookAttempt hmacHex (oracle attempt) db now event_id url p attempt).request
          :: rest.posts
      db := rest.db }
  else
    { dbTrace := [(webhookAttempt hmacHex (oracle attempt) db now event_id url p attempt).db]
      posts := [(webhookAttempt hmacHex (oracle attempt) db now event_id url p attempt).request]
      db := (webhookAttempt hmacHex (oracle attempt) db now event_id url p attempt).db }
termination_by max_attempts + 1 - attempt
decreasing_by omega

/-- The sweeper's SELECT (app.py lines 1550-1556): rows with
`status = 'retrying' AND next_retry_at <= datetime('now') LIMIT 10`
(SQL comparison with a NULL `next_retry_at` selects nothing). -/
def sweepSelect (db : EventStore) (now : Nat) : List WebhookEvent :=
  (db.filter fun e =>
    decide (e.status = WStatus.retrying) &&
      (match e.next_retry_at with
       | some t => decide (t ≤ now)
       | none => false)).take 10

/-- The `for event in events:` loop of `webhook_retry_scheduler` (app.py lines
1559-1565), which runs inside the cycle's single `try`: process the selected
rows in order; the first exception raised while processing one row aborts the
loop (the `except` at line 1567 is outside the loop) and is returned as the
caught error message. `proc` is the per-row body — `json.loads` of the payload
column followed by `await send_webhook_with_retry(...)` and its commits — which
can raise in the source (malformed stored JSON, SQLite errors such as a locked
database file inside the chain's update blocks). -/
def sweepBatch (proc : EventStore → WebhookEvent → Except String EventStore) :
    EventStore → List WebhookEvent → EventStore × Option String
  | db, [] => (db, none)
  | db, e :: rest =>
    match proc db e with
    | .ok db' => sweepBatch proc db' rest
    | .error msg => (db, some msg)

/-- One cycle of `webhook_retry_scheduler` (app.py lines 1546-1568): SELECT the
due retrying rows, then run the per-row loop under the cycle's `try`/`except`. -/
def webhook_retry_cycle (proc : EventStore → WebhookEvent → Except String EventStore)
    (db : EventStore) (now : Nat) : EventStore × Option String :=
  sweepBatch proc db (sweepSelect db now)

/-- `webhook_retry_scheduler`'s outer `while True:` loop (app.py lines
1544-1570) run for `n` cycles, 30 seconds apart: each cycle's exception, if
any, is caught and logged (line 1567-1568) and the loop continues. -/
def webhook_retry_scheduler (proc : EventStore → WebhookEvent → Except String EventStore)
    (db : EventStore) (now : Nat) : Nat → EventStore
  | 0 => db
  | n + 1 => webhook_retry_scheduler proc (webhook_retry_cycle proc db now).1 (now + 30) n

/-- One category entry of the `webhooks_config` JSON column: the object
`{"is_enabled": ...}`. `is_enabled = none` models an absent `is_enabled` key
(Python `.get('is_enabled')` returns `None`); `some b` models a present key
whose value has truthiness `b`. -/
structure CatFlag where
  is_enabled : Option Bool
deriving DecidableEq, Repr

/-- A row of the `store_integrations` table as read by `trigger_webhook`
(app.py lines 373-379): `webhook_url` is nullable text, `webhooks_config`
nullable JSON text modelled as an association list of category objects. -/
structure StoreIntegration where
  store_id : String
  integration_enabled : Bool
  webhook_url : Option String
  webhooks_config : Option (List (String × CatFlag))
deriving DecidableEq, Repr

/-- The SELECT at app.py lines 375-380:
`WHERE store_id = ? AND integration_enabled = 1`, first matching row. -/
def lookupIntegration (ints : List StoreIntegration) (store_id : String) :
    Option StoreIntegration :=
  ints.find? fun i => i.store_id == store_id && i.integration_enabled

/-- Python truthiness of the `webhook_url` column as used at app.py line 382
(`not result['webhook_url']`): NULL and the empty string are falsy. -/
def truthyUrl : Option String → Bool
  | none => false
  | some s => !s.isEmpty

/-- `webhooks_config.get(key, {}).get('is_enabled')` truthiness (app.py lines
390-397): an absent category key, an absent `is_enabled` key, and a falsy
`is_enabled` value all count as not enabled. -/
def categoryEnabled (cfg : List (String × CatFlag)) (key : String) : Bool :=
  match List.lookup key cfg with
  | some flag => flag.is_enabled.getD false
  | none => false

/-- The three gating checks at app.py lines 390-397; event types other than the
three gated ones are not checked at all. -/
def gateAllows (cfg : List (String × CatFlag)) (event_type : String) : Bool :=
  if event_type == "orders.release" then
    categoryEnabled cfg ("order_release_webhooks")
  else if event_type == "orders.scheduled.notification" then
    categoryEnabled cfg ("schedule_order_webhooks")
  else if event_type == "delivery.state_changed" then
    categoryEnabled cfg ("delivery_status_webhooks")
  else
    true

/-- Python's `a or b` on an optional string (app.py line 405,
`order_id or store_id`): `None` and the empty string fall through to `b`. -/
def pyOr (a : Option String) (b : String) : String :=
  match a with
  | some s => if s.isEmpty then b else s
  | none => b

/-- `resource_href` (app.py line 406):
`f"{BASE_URL}/v1/delivery/order/{order_id}" if order_id else None`. -/
def mkResourceHref : Option String → Option String
  | some oid => if oid.isEmpty then none else
      some (BASE_URL ++ "/v1/delivery/order/" ++ oid)
  | none => none

/-- The payload dict built at app.py lines 400-412. `data` is the
caller-supplied dict modelled as an association list; `meta.status` is
`data.get('status') if data else None`. -/
def buildPayload (event_type store_id : String) (order_id : Option String)
    (data : Option (List (String × String))) (now : Nat)
    (new_event_id : String) : Payload :=
  { event_id := new_event_id
    event_type := event_type
    event_time := now
    resource_id := pyOr order_id store_id
    resource_href := mkResourceHref order_id
    meta := { user_id := store_id, resource_id := pyOr order_id store_id,
              status := data.bind fun d => List.lookup ("status") d } }

/-- Result of `trigger_webhook`: the table afterwards, and the hand-off to
`send_webhook_with_retry` at app.py line 423 (`some (webhook_url, payload)`)
when an event was created, `none` on the silent no-op paths. -/
structure TriggerOutcome where
  events : EventStore
  dispatched : Option (String × Payload)
deriving DecidableEq, Repr

/-- `trigger_webhook` (app.py lines 366-423) after its initial
`await asyncio.sleep(delay)`: look up the enabled integration row; no-op when
no row matched or `webhook_url` is falsy (line 382); no-op when the gating
check for the event type fails (lines 390-397); otherwise build the payload,
INSERT the event row (lines 415-420 — the omitted columns take schema defaults
`status='pending'`, `attempts=0`, NULL timestamps) and hand off to the
delivery chain. `now` is the clock after the delay; `new_event_id` models the
generated `f"evt_{uuid.uuid4().hex[:12]}"`. -/
def trigger_webhook (ints : List StoreIntegration) (events : EventStore)
    (event_type store_id : String) (order_id : Option String)
    (data : Option (List (String × String))) (now : Nat)
    (new_event_id : String) : TriggerOutcome :=
  match lookupIntegration ints store_id with
  | none => { events := events, dispatched := none }
  | some integ =>
    if !truthyUrl integ.webhook_url then
      { events := events, dispatched := none }
    else
      let url := integ.webhook_url.getD ""
      let cfg := integ.webhooks_config.getD []
      if !gateAllows cfg event_type then
        { events := events, dispatched := none }
      else
        let p := buildPayload event_type store_id order_id data now new_event_id
        let ev : WebhookEvent :=
          { event_id := new_event_id, event_type := event_type,
            store_id := store_id, order_id := order_id, payload := p,
            webhook_url := url, status := .pending, attempts := 0,
            last_attempt_at := none, next_retry_at := none, created_at := now }
        { events := events ++ [ev], dispatched := some (url, p) }

/-- The observable steps of one `trigger_webhook` invocation, in program
order. -/
inductive TriggerOp
  | sleepOp (d : Nat)
  | readIntegration
  | insertEvent
  | dispatchSend
deriving DecidableEq, Repr

/-- The order of effects in `trigger_webhook` (app.py lines 366-423): the
`await asyncio.sleep(delay)` at line 370 comes first, then the SELECT at lines
373-380; the INSERT (lines 415-420) and the hand-off to the delivery chain
(line 423) happen, in that order, only on the non-no-op path. -/
def trigger_trace (ints : List StoreIntegration) (events : EventStore)
    (event_type store_id : String) (order_id : Option String)
    (data : Option (List (String × String))) (now : Nat)
    (new_event_id : String) (delay : Nat) : List TriggerOp :=
  TriggerOp.sleepOp delay :: TriggerOp.readIntegration ::
    (if (trigger_webhook ints events event_type store_id order_id data now
          new_event_id).dispatched.isSome
     then [TriggerOp.insertEvent, TriggerOp.dispatchSend]
     else [])

/-- `trigger_webhook` against a time-indexed world: the coroutine sleeps for
`delay` starting at `t0` and only then reads the database, so the integration
rows and event table it operates on are those at time `t0 + delay`. -/
def trigger_webhook_timed (world : Nat → List StoreIntegration × EventStore)
    (t0 delay : Nat) (event_type store_id : String) (order_id : Option String)
    (data : Option (List (String × String))) (new_event_id : String) :
    TriggerOutcome :=
  trigger_webhook (world (t0 + delay)).1 (world (t0 + delay)).2 event_type
    store_id order_id data (t0 + delay) new_event_id

/-- `retry_webhook`, the `POST /webhooks/retry/{event_id}` handler (app.py
lines 1437-1470): SELECT the row's `webhook_url` and `payload`; when absent,
raise 404 with the table unchanged (`none` dispatch); otherwise UPDATE
`status = 'pending', attempts = 0` and schedule `send_webhook_with_retry` with
the stored url and the `json.loads` of the stored payload column. -/
def retry_webhook (db : EventStore) (event_id : String) :
    EventStore × Option (String × Payload) :=
  match db.find? (fun e => e.event_id == event_id) with
  | none => (db, none)
  | some e =>
    let db' := updateWhere db event_id fun ev =>
      { ev with status := .pending, attempts := 0 }
    (db', some (e.webhook_url, e.payload))

/-! ### Concrete fixtures used by witnesses and counterexamples -/

/-- A trivial stand-in for the HMAC-SHA256 hex primitive, used where a concrete
instantiation of the abstract `hmacHex` parameter is needed. -/
def hmac0 : String → String → String := fun _ _ => ""

/-- A receiver that always answers HTTP 500. -/
def oracle500 : Nat → Outcome := fun _ => Outcome.response 500

/-- A receiver that always answers HTTP 200. -/
def oracle200 : Nat → Outcome := fun _ => Outcome.response 200

/-- A concrete payload as built by `trigger_webhook` for an
`orders.notification` event of the demo store. -/
def p0 : Payload :=
  { event_id := "evt_1", event_type := "orders.notification", event_time := 0,
    resource_id := "store_123", resource_href := none,
    meta := { user_id := "store_123", resource_id := "store_123",
              status := none } }

/-- A freshly inserted event row for `p0` (schema defaults:
`status='pending'`, `attempts=0`, NULL timestamps). -/
def e0 : WebhookEvent :=
  { event_id := "evt_1", event_type := "orders.notification",
    store_id := "store_123", order_id := none, payload := p0,
    webhook_url := "http://x", status := .pending, attempts := 0,
    last_attempt_at := none, next_retry_at := none, created_at := 0 }

/-- The committed state of `e0` after two failed attempts of the immediate
delivery chain (attempt 2's retrying UPDATE at time 2): `attempts = 2`,
`next_retry_at = 6`, status retrying — the state during the chain's 4-second
backoff sleep before attempt 3. -/
def eStuck : WebhookEvent :=
  { e0 with attempts := 2, last_attempt_at := some 2, next_retry_at := some 6,
            status := .retrying }

/-- The terminal row of a three-failure chain on `e0`: status failed with
`next_retry_at` still holding the value written by attempt 2's retrying
UPDATE. -/
def eFailedStale : WebhookEvent :=
  { e0 with attempts := 3, last_attempt_at := some 2, next_retry_at := some 6,
            status := .failed }

/-- A retrying event row due for a sweep (used by the sweeper-batch
counterexample). -/
def er1 : WebhookEvent :=
  { e0 with status := .retrying, attempts := 1, last_attempt_at := some 0,
            next_retry_at := some 2 }

/-- A second retrying event row due for the same sweep. -/
def er2 : WebhookEvent :=
  { e0 with event_id := "evt_2", payload := { p0 with event_id := "evt_2" },
            status := .retrying, attempts := 1, last_attempt_at := some 0,
            next_retry_at := some 2 }

/-- A per-event sweeper body where processing `evt_1` raises (as the source's
`json.loads` or the SQLite commits inside `send_webhook_with_retry` can) while
processing any other row runs the delivery chain against a receiver that
answers 200. -/
def procBoom : EventStore → WebhookEvent → Except String EventStore :=
  fun db e =>
    if e.event_id == "evt_1" then Except.error ("boom")
    else Except.ok
      (send_webhook_with_retry hmac0 oracle200 db 2 e.event_id e.webhook_url
        e.payload 1).db

/-- An enabled integration row with a webhook URL and an empty
`webhooks_config` object. -/
def cInt : StoreIntegration :=
  { store_id := "s1", integration_enabled := true,
    webhook_url := some "http://x", webhooks_config := some [] }

/-- `er2` after a successful delivery by the sweeper body. -/
def er2d : WebhookEvent := { er2 with status := .delivered, attempts := 1 }

/-! ### General lemmas about the embedded operations -/

theorem attemptsIn_singleton (x : WebhookEvent) (eid : String)
    (h : x.event_id = eid) : attemptsIn [x] eid = x.attempts := by
  simp [attemptsIn, List.find?, h]

theorem webhookAttempt_request (hmacHex : String → String → String)
    (out : Outcome) (db : EventStore) (now : Nat) (eid url : String)
    (p : Payload) (a : Nat) :
    (webhookAttempt hmacHex out db now eid url p a).request =
      mkWebhookRequest hmacHex url p := by
  unfold webhookAttempt
  split
  · rfl
  · split <;> rfl

theorem send_posts_eq (hmacHex : String → String → String)
    (oracle : Nat → Outcome) (db : EventStore) (now : Nat)
    (eid url : String) (p : Payload) (attempt : Nat) :
    ∀ r ∈ (send_webhook_with_retry hmacHex oracle db now eid url p
      attempt).posts, r = mkWebhookRequest hmacHex url p := by
  induction db, now, eid, url, p, attempt
    using send_webhook_with_retry.induct hmacHex oracle with
  | case1 db now eid url p attempt h ih =>
    rw [send_webhook_with_retry, dif_pos h]
    intro r hr
    rcases List.mem_cons.mp hr with h1 | h2
    · simpa [webhookAttempt_request] using h1
    · exact ih r h2
  | case2 db now eid url p attempt h =>
    rw [send_webhook_with_retry, dif_neg h]
    intro r hr
    rcases List.mem_cons.mp hr with h1 | h2
    · simpa [webhookAttempt_request] using h1
    · simp at h2

/-- A `send_webhook_with_retry` chain acting on the single row it addresses,
started at any in-range attempt number: it ends in a terminal status, the
recorded `attempts` equals the chain's own POST count offset by the starting
attempt number, stays within `max_attempts`, the `attempts` values across the
chain's successive commits are exactly `attempt, attempt+1, ...` (strictly
increasing), and the payload and url columns are never touched. -/
theorem send_chain_spec (hmacHex : String → String → String)
    (oracle : Nat → Outcome) (db : EventStore) (now : Nat)
    (eid url : String) (p : Payload) (attempt : Nat) :
    ∀ e : WebhookEvent, db = [e] → e.event_id = eid → 1 ≤ attempt →
      attempt ≤ max_attempts →
    ∃ e',
      (send_webhook_with_retry hmacHex oracle db now eid url p attempt).db
        = [e'] ∧
      e'.event_id = eid ∧ e'.payload = e.payload ∧
      e'.webhook_url = e.webhook_url ∧
      e'.attempts + 1 = attempt +
        (send_webhook_with_retry hmacHex oracle db now eid url p
          attempt).posts.length ∧
      e'.attempts ≤ max_attempts ∧
      (e'.status = WStatus.delivered ∨ e'.status = WStatus.failed) ∧
      ((send_webhook_with_retry hmacHex oracle db now eid url p
          attempt).dbTrace.map (fun d => attemptsIn d eid)) =
        (List.range
          (send_webhook_with_retry hmacHex oracle db now eid url p
            attempt).posts.length).map (fun k => attempt + k) := by
  induction db, now, eid, url, p, attempt
    using send_webhook_with_retry.induct hmacHex oracle with
  | case1 db now eid url p attempt h ih =>
    intro e hdb he h1 h2
    subst hdb
    have hbeq : (e.event_id == eid) = true := by simp [he]
    have hwa : (webhookAttempt hmacHex (oracle attempt) [e] now eid url p
        attempt).db =
        [{ e with attempts := attempt, last_attempt_at := some now, next_retry_at := some (now + 2 ^ attempt), status := WStatus.retrying }] := by
      simp [webhookAttempt, h.2, h.1, markRetrying, updateWhere, hbeq, he]
    obtain ⟨e', hdb', hid', hpay', hurl', hatt', hle', hterm', htr'⟩ :=
      ih _ hwa he (by omega) (by omega)
    rw [send_webhook_with_retry, dif_pos h]
    simp only [List.length_cons, List.map_cons]
    refine ⟨e', hdb', hid', hpay', hurl', by omega, hle', hterm', ?_⟩
    rw [List.range_succ_eq_map, List.map_cons, List.map_map]
    congr 1
    · rw [hwa]
      simp [attemptsIn, List.find?, he]
    · rw [htr']
      congr 1
      funext k
      simp only [Function.comp]
      omega
  | case2 db now eid url p attempt h =>
    intro e hdb he h1 h2
    subst hdb
    have hbeq : (e.event_id == eid) = true := by simp [he]
    rw [send_webhook_with_retry, dif_neg h]
    by_cases hs : isSuccess (oracle attempt)
    · have hwa : (webhookAttempt hmacHex (oracle attempt) [e] now eid url p
          attempt).db =
          [{ e with status := WStatus.delivered, attempts := attempt }] := by
        simp [webhookAttempt, hs, markDelivered, updateWhere, hbeq, he]
      refine ⟨_, hwa, he, rfl, rfl, by simp, h2, Or.inl rfl, ?_⟩
      simp only [List.map_cons, List.map_nil, List.length_cons, List.length_nil]
      rw [hwa]
      simp [attemptsIn, List.find?, he, List.range_succ]
    · have hns : ¬ attempt < max_attempts := fun hlt => h ⟨hlt, hs⟩
      have hwa : (webhookAttempt hmacHex (oracle attempt) [e] now eid url p
          attempt).db =
          [{ e with status := WStatus.failed, attempts := attempt }] := by
        simp [webhookAttempt, hs, hns, markFailed, updateWhere, hbeq, he]
      refine ⟨_, hwa, he, rfl, rfl, by simp, h2, Or.inr rfl, ?_⟩
      simp only [List.map_cons, List.map_nil, List.length_cons, List.length_nil]
      rw [hwa]
      simp [attemptsIn, List.find?, he, List.range_succ]

/-- Rows of `updateWhere db eid f` satisfy `P` when the untouched rows do and
`f` always produces a `P`-row. -/
theorem updateWhere_pres (P : WebhookEvent → Prop) (db : EventStore)
    (eid : String) (f : WebhookEvent → WebhookEvent)
    (hdb : ∀ e ∈ db, P e) (hf : ∀ e ∈ db, P (f e)) :
    ∀ e ∈ updateWhere db eid f, P e := by
  intro x hx
  simp only [updateWhere] at hx
  rcases List.mem_map.mp hx with ⟨y, hy, rfl⟩
  by_cases hb : (y.event_id == eid) = true
  · simpa [hb] using hf y hy
  · simpa [hb] using hdb y hy

/-- If `f` leaves the column read by `g` unchanged, so does the whole SQL
UPDATE. -/
theorem updateWhere_map_eq {α : Type} (g : WebhookEvent → α) (db : EventStore)
    (eid : String) (f : WebhookEvent → WebhookEvent)
    (hf : ∀ e, g (f e) = g e) :
    (updateWhere db eid f).map g = db.map g := by
  simp only [updateWhere, List.map_map]
  refine List.map_congr_left ?_
  intro x hx
  by_cases hb : (x.event_id == eid) = true <;> simp [Function.comp, hb, hf]

/-- Every row selected by the sweeper's SELECT is retrying and due. -/
theorem sweepSelect_retrying (db : EventStore) (now : Nat) :
    ∀ e ∈ sweepSelect db now, e.status = WStatus.retrying ∧
      ∃ t, e.next_retry_at = some t ∧ t ≤ now := by
  intro e he
  have hmem : e ∈ db.filter fun e =>
      decide (e.status = WStatus.retrying) &&
        (match e.next_retry_at with
         | some t => decide (t ≤ now)
         | none => false) := List.take_subset _ _ he
  have hp := List.of_mem_filter hmem
  simp only [Bool.and_eq_true, decide_eq_true_eq] at hp
  refine ⟨hp.1, ?_⟩
  rcases h2 : e.next_retry_at with _ | t
  · rw [h2] at hp
    simp at hp
  · rw [h2] at hp
    exact ⟨t, rfl, by simpa using hp.2⟩

/-! ### Claim C1 -/

/-- C1 (amended): within one delivery chain started at attempt 1 — as both
`trigger_webhook` and the manual retry endpoint start it — the `attempts`
values recorded by the chain's successive commits are exactly 1, 2, ..., k
(strictly increasing), the chain ends in a terminal status whose stored
`attempts` equals the number of POSTs that chain issued, and that value never
exceeds 3.  The original claim's further guarantee for sweeper-resumed events
is false: `webhook_retry_scheduler` restarts the chain at attempt 1, so across
a sweeper resume the stored counter decreases and the terminal value
undercounts the POSTs actually issued (see the counterexample). -/
theorem c1_attempts_within_chain (hmacHex : String → String → String)
    (oracle : Nat → Outcome) (e : WebhookEvent) (now : Nat)
    (eid url : String) (p : Payload) (he : e.event_id = eid) :
    ∃ e',
      (send_webhook_with_retry hmacHex oracle [e] now eid url p 1).db = [e'] ∧
      (e'.status = WStatus.delivered ∨ e'.status = WStatus.failed) ∧
      e'.attempts =
        (send_webhook_with_retry hmacHex oracle [e] now eid url p
          1).posts.length ∧
      e'.attempts ≤ 3 ∧
      ((send_webhook_with_retry hmacHex oracle [e] now eid url p
          1).dbTrace.map (fun d => attemptsIn d eid)) =
        (List.range
          (send_webhook_with_retry hmacHex oracle [e] now eid url p
            1).posts.length).map (fun k => 1 + k) := by
  obtain ⟨e', h1, h2, h3, h4, h5, h6, h7, h8⟩ :=
    send_chain_spec hmacHex oracle [e] now eid url p 1 e rfl he (by omega)
      (by norm_num [max_attempts])
  exact ⟨e', h1, h7, by omega, by simpa [max_attempts] using h6, h8⟩

/-- Witness for C1 at a concrete input: the fresh row `e0`, a receiver
answering 200. -/
theorem c1_attempts_within_chain_witness :
    e0.event_id = "evt_1" ∧
    ∃ e',
      (send_webhook_with_retry hmac0 oracle200 [e0] 0 ("evt_1") ("http://x")
        p0 1).db = [e'] ∧
      (e'.status = WStatus.delivered ∨ e'.status = WStatus.failed) ∧
      e'.attempts =
        (send_webhook_with_retry hmac0 oracle200 [e0] 0 ("evt_1") ("http://x")
          p0 1).posts.length ∧
      e'.attempts ≤ 3 ∧
      ((send_webhook_with_retry hmac0 oracle200 [e0] 0 ("evt_1") ("http://x")
          p0 1).dbTrace.map (fun d => attemptsIn d ("evt_1"))) =
        (List.range
          (send_webhook_with_retry hmac0 oracle200 [e0] 0 ("evt_1")
            ("http://x") p0 1).posts.length).map (fun k => 1 + k) :=
  ⟨rfl, c1_attempts_within_chain hmac0 oracle200 e0 0 ("evt_1") ("http://x")
    p0 rfl⟩

/-- C1 (counterexample): a chain from the fresh row `e0` against a failing
receiver commits the state `eStuck` (retrying, `attempts = 2`,
`next_retry_at = 6`) before sleeping 4 seconds until attempt 3; a sweeper
cycle at time 6 — the sweep interval is 30 s, so cycles do fire during
backoff sleeps — SELECTs the row and calls `send_webhook_with_retry` with the
default `attempt = 1` (app.py line 1561), whose first commit stores
`attempts = 1 < 2`: the counter decreases without any manual retry.  Letting
both chains run to failure, 3 + 3 = 6 POSTs are issued for the event while
the terminal row stores `attempts = 3`. -/
theorem c1_sweeper_resume_cex :
    (send_webhook_with_retry hmac0 oracle500 [e0] 0 ("evt_1") ("http://x")
      p0 1).dbTrace.getD 1 [] = [eStuck] ∧
    eStuck.status = WStatus.retrying ∧ eStuck.attempts = 2 ∧
    sweepSelect [eStuck] 6 = [eStuck] ∧
    attemptsIn ((send_webhook_with_retry hmac0 oracle500 [eStuck] 6 ("evt_1")
      ("http://x") p0 1).dbTrace.getD 0 []) ("evt_1") = 1 ∧
    attemptsIn (send_webhook_with_retry hmac0 oracle500 [eStuck] 6 ("evt_1")
      ("http://x") p0 1).db ("evt_1") = 3 ∧
    (send_webhook_with_retry hmac0 oracle500 [e0] 0 ("evt_1") ("http://x")
        p0 1).posts.length +
      (send_webhook_with_retry hmac0 oracle500 [eStuck] 6 ("evt_1")
        ("http://x") p0 1).posts.length = 6 := by
  refine ⟨?_, rfl, rfl, by decide, ?_, ?_, ?_⟩
  · simp [send_webhook_with_retry, webhookAttempt, markRetrying, markFailed,
      markDelivered, updateWhere, isSuccess, max_attempts, mkWebhookRequest,
      oracle500, hmac0, e0, eStuck, p0]
  · simp [send_webhook_with_retry, webhookAttempt, markRetrying, markFailed,
      markDelivered, updateWhere, isSuccess, max_attempts, mkWebhookRequest,
      oracle500, hmac0, e0, eStuck, p0, attemptsIn]
  · simp [send_webhook_with_retry, webhookAttempt, markRetrying, markFailed,
      markDelivered, updateWhere, isSuccess, max_attempts, mkWebhookRequest,
      oracle500, hmac0, e0, eStuck, p0, attemptsIn]
  · simp [send_webhook_with_retry, webhookAttempt, markRetrying, markFailed,
      markDelivered, updateWhere, isSuccess, max_attempts, mkWebhookRequest,
      oracle500, hmac0, e0, eStuck, p0]

/-- Membership in an SQL UPDATE's result: every row either is the image of a
matching row or is an untouched non-matching row. -/
theorem mem_updateWhere_elim (db : EventStore) (eid : String)
    (f : WebhookEvent → WebhookEvent) (x : WebhookEvent)
    (hx : x ∈ updateWhere db eid f) :
    (∃ y ∈ db, (y.event_id == eid) = true ∧ x = f y) ∨
    (∃ y ∈ db, (y.event_id == eid) = false ∧ x = y) := by
  simp only [updateWhere] at hx
  rcases List.mem_map.mp hx with ⟨y, hy, rfl⟩
  by_cases hb : (y.event_id == eid) = true
  · exact Or.inl ⟨y, hy, hb, by simp [hb]⟩
  · exact Or.inr ⟨y, hy, by simpa using hb, by simp [hb]⟩

/-! ### Claim C2 -/

/-- C2: each delivery attempt updates the event per the state machine's step
function: HTTP 200 ⇒ delivered (terminal), recording the attempt count; any
other outcome (non-200 status, or a timeout/connection-error exception) with
attempt < 3 ⇒ retrying with `next_retry_at = now + 2^attempt` (2 s after
attempt 1, 4 s after attempt 2) and a follow-up attempt scheduled at exactly
that time with the next attempt number; any other outcome at attempt 3 ⇒
failed (terminal).  Delivered and failed receive no further automatic
attempts: the chain issues no POST beyond the terminal one, and the sweeper's
SELECT only ever picks retrying rows. -/
theorem c2_state_machine_step (hmacHex : String → String → String)
    (out : Outcome) (oracle : Nat → Outcome) (e : WebhookEvent) (now : Nat)
    (eid url : String) (p : Payload) (a : Nat) (he : e.event_id = eid) :
    (isSuccess out = true →
      (webhookAttempt hmacHex out [e] now eid url p a).db =
        [{ e with status := WStatus.delivered, attempts := a }] ∧
      (webhookAttempt hmacHex out [e] now eid url p a).followUp = none) ∧
    (isSuccess out = false → a < max_attempts →
      (webhookAttempt hmacHex out [e] now eid url p a).db =
        [{ e with attempts := a, last_attempt_at := some now, next_retry_at := some (now + 2 ^ a), status := WStatus.retrying }] ∧
      (webhookAttempt hmacHex out [e] now eid url p a).followUp =
        some (now + 2 ^ a, a + 1)) ∧
    (isSuccess out = false → a = max_attempts →
      (webhookAttempt hmacHex out [e] now eid url p a).db =
        [{ e with status := WStatus.failed, attempts := a }] ∧
      (webhookAttempt hmacHex out [e] now eid url p a).followUp = none) ∧
    (a = 1 → now + 2 ^ a = now + 2) ∧
    (a = 2 → now + 2 ^ a = now + 4) ∧
    (isSuccess (Outcome.response 200) = true ∧
      (∀ c : Nat, c ≠ 200 → isSuccess (Outcome.response c) = false) ∧
      isSuccess Outcome.exception = false) ∧
    (∀ db' : EventStore, ∀ now' : Nat, ∀ ev ∈ sweepSelect db' now',
      ev.status = WStatus.retrying) ∧
    (isSuccess (oracle a) = true ∨ a = max_attempts →
      (send_webhook_with_retry hmacHex oracle [e] now eid url p a).posts.length
        = 1) := by
  refine ⟨?_, ?_, ?_, ?_, ?_, ⟨rfl, ?_, rfl⟩, ?_, ?_⟩
  · intro hs
    constructor
    · simp [webhookAttempt, hs, markDelivered, updateWhere, he]
    · simp [webhookAttempt, hs]
  · intro hs hlt
    constructor
    · simp [webhookAttempt, hs, hlt, markRetrying, updateWhere, he]
    · simp [webhookAttempt, hs, hlt]
  · intro hs hmaxa
    have hns : ¬ a < max_attempts := by omega
    constructor
    · simp [webhookAttempt, hs, hns, markFailed, updateWhere, he]
    · simp [webhookAttempt, hs, hns]
  · intro ha
    subst ha
    rfl
  · intro ha
    subst ha
    rfl
  · intro c hc
    simp [isSuccess, hc]
  · intro db' now' ev hev
    exact (sweepSelect_retrying db' now' ev hev).1
  · intro hstop
    have hcond : ¬ (a < max_attempts ∧ ¬ isSuccess (oracle a) = true) := by
      rcases hstop with hs | hmaxa
      · exact fun hc => hc.2 hs
      · exact fun hc => by omega
    rw [send_webhook_with_retry, dif_neg hcond]
    rfl

/-- Witness for C2 at a concrete input: a 200 response at attempt 1 of the
fresh row `e0`. -/
theorem c2_state_machine_step_witness :
    e0.event_id = "evt_1" ∧
    isSuccess (Outcome.response 200) = true ∧
    (webhookAttempt hmac0 (Outcome.response 200) [e0] 5 ("evt_1") ("http://x") p0 1).db = [{ e0 with status := WStatus.delivered, attempts := 1 }] ∧
    (webhookAttempt hmac0 (Outcome.response 200) [e0] 5 ("evt_1") ("http://x")
      p0 1).followUp = none :=
  ⟨rfl, rfl,
    (c2_state_machine_step hmac0 (Outcome.response 200) oracle200 e0 5
      ("evt_1") ("http://x") p0 1 rfl).1 rfl⟩

/-! ### Claim C3 -/

/-- C3 (amended): every sweeper cycle SELECTs at most 10 events, each of them
retrying and due; the outer loop always proceeds to the next cycle no matter
how the current one ended (its exception, if any, is caught and logged); but
error isolation is per cycle, not per event: an exception raised while
processing one selected event aborts the processing of the remaining events
of that same batch (the `except` is outside the `for` loop), leaving them for
a later cycle. -/
theorem c3_sweeper_isolation
    (proc : EventStore → WebhookEvent → Except String EventStore)
    (db db0 : EventStore) (now : Nat) (n : Nat) :
    (sweepSelect db now).length ≤ 10 ∧
    (∀ e ∈ sweepSelect db now, e.status = WStatus.retrying ∧
      ∃ t, e.next_retry_at = some t ∧ t ≤ now) ∧
    webhook_retry_scheduler proc db now (n + 1) =
      webhook_retry_scheduler proc (webhook_retry_cycle proc db now).1
        (now + 30) n ∧
    (∀ e rest msg, proc db0 e = Except.error msg →
      sweepBatch proc db0 (e :: rest) = (db0, some msg)) := by
  refine ⟨?_, sweepSelect_retrying db now, rfl, ?_⟩
  · simp [sweepSelect, List.length_take_le]
  · intro e rest msg h
    simp [sweepBatch, h]

/-- Witness for C3 at a concrete input: the erroring body `procBoom` on the
two-row batch. -/
theorem c3_sweeper_isolation_witness :
    procBoom [er1, er2] er1 = Except.error ("boom") ∧
    sweepBatch procBoom [er1, er2] (er1 :: [er2]) = ([er1, er2], some ("boom")) :=
  ⟨rfl,
    (c3_sweeper_isolation procBoom [er1, er2] [er1, er2] 5 0).2.2.2 er1 [er2]
      ("boom") rfl⟩

/-- C3 (counterexample): with two due retrying rows selected in one batch, an
exception on the first aborts the whole batch: the cycle ends with the table
unchanged and the error caught, and the second row is untouched (still
retrying) — even though processing it alone would have delivered it. -/
theorem c3_batch_abort_cex :
    sweepSelect [er1, er2] 5 = [er1, er2] ∧
    webhook_retry_cycle procBoom [er1, er2] 5 = ([er1, er2], some ("boom")) ∧
    er2.status = WStatus.retrying ∧ er2.next_retry_at = some 2 ∧
    sweepBatch procBoom [er1, er2] [er2] = ([er1, er2d], none) ∧
    er2d.status = WStatus.delivered ∧ er2d ≠ er2 := by
  have hsel : sweepSelect [er1, er2] 5 = [er1, er2] := by decide
  refine ⟨hsel, ?_, rfl, rfl, ?_, rfl, by decide⟩
  · rw [webhook_retry_cycle, hsel]
    simp [sweepBatch, procBoom, er1, er2, e0, p0]
  · simp [sweepBatch, procBoom, send_webhook_with_retry, webhookAttempt,
      markDelivered, markRetrying, markFailed, updateWhere, isSuccess,
      max_attempts, mkWebhookRequest, oracle200, hmac0, er1, er2, er2d, e0, p0]

/-! ### Claim C4 -/

/-- C4: for any event id present in the table — whatever its status — the
manual retry endpoint resets `attempts` to 0 and `status` to pending, leaves
every payload column untouched, and re-dispatches the delivery chain with the
stored url and stored payload, every POST of which carries exactly the
serialization of that payload; for an unknown id it reports not-found with no
dispatch and the table unchanged.  The three delivery updates never touch the
payload column either, so the payload re-sent equals the one captured at
creation byte for byte. -/
theorem c4_manual_retry (db db2 : EventStore) (eid : String)
    (e : WebhookEvent) (hmacHex : String → String → String)
    (oracle : Nat → Outcome) (now : Nat) :
    ((∀ x ∈ db, x.event_id ≠ eid) → retry_webhook db eid = (db, none)) ∧
    (db.find? (fun x => x.event_id == eid) = some e →
      (retry_webhook db eid).2 = some (e.webhook_url, e.payload) ∧
      (retry_webhook db eid).1.map (fun x => x.payload) =
        db.map (fun x => x.payload) ∧
      (∀ x ∈ (retry_webhook db eid).1, x.event_id = eid →
        x.status = WStatus.pending ∧ x.attempts = 0) ∧
      (∀ r ∈ (send_webhook_with_retry hmacHex oracle db2 now eid
          e.webhook_url e.payload 1).posts,
        r.url = e.webhook_url ∧ r.body = dumpsPayload e.payload)) ∧
    (∀ a nowt nxt,
      (markDelivered db eid a).map (fun x => x.payload) =
        db.map (fun x => x.payload) ∧
      (markRetrying db eid a nowt nxt).map (fun x => x.payload) =
        db.map (fun x => x.payload) ∧
      (markFailed db eid a).map (fun x => x.payload) =
        db.map (fun x => x.payload)) := by
  refine ⟨?_, ?_, ?_⟩
  · intro h
    have hnone : db.find? (fun x => x.event_id == eid) = none := by
      apply List.find?_eq_none.mpr
      intro x hx
      simpa using h x hx
    simp [retry_webhook, hnone]
  · intro hfind
    refine ⟨?_, ?_, ?_, ?_⟩
    · simp [retry_webhook, hfind]
    · simp only [retry_webhook, hfind]
      exact updateWhere_map_eq _ db eid _ (fun x => rfl)
    · simp only [retry_webhook, hfind]
      intro x hx hid
      rcases mem_updateWhere_elim db eid _ x hx with ⟨y, _, _, rfl⟩ | ⟨y, _, hb, rfl⟩
      · exact ⟨rfl, rfl⟩
      · exact absurd hid (by simpa using hb)
    · intro r hr
      have hreq := send_posts_eq hmacHex oracle db2 now eid e.webhook_url
        e.payload 1 r hr
      rw [hreq]
      exact ⟨rfl, rfl⟩
  · intro a nowt nxt
    exact ⟨updateWhere_map_eq _ db eid _ (fun x => rfl),
      updateWhere_map_eq _ db eid _ (fun x => rfl),
      updateWhere_map_eq _ db eid _ (fun x => rfl)⟩

/-- Witness for C4 at a concrete input: manual retry of the failed row
`eFailedStale`. -/
theorem c4_manual_retry_witness :
    [eFailedStale].find? (fun x => x.event_id == "evt_1") = some eFailedStale ∧
    ((retry_webhook [eFailedStale] ("evt_1")).2 =
      some (eFailedStale.webhook_url, eFailedStale.payload) ∧
     (retry_webhook [eFailedStale] ("evt_1")).1.map (fun x => x.payload) =
      [eFailedStale].map (fun x => x.payload) ∧
     (∀ x ∈ (retry_webhook [eFailedStale] ("evt_1")).1, x.event_id = "evt_1" →
       x.status = WStatus.pending ∧ x.attempts = 0) ∧
     (∀ r ∈ (send_webhook_with_retry hmac0 oracle200 [] 0 ("evt_1")
         eFailedStale.webhook_url eFailedStale.payload 1).posts,
       r.url = eFailedStale.webhook_url ∧
       r.body = dumpsPayload eFailedStale.payload)) :=
  ⟨rfl,
    (c4_manual_retry [eFailedStale] [] ("evt_1") eFailedStale hmac0 oracle200
      0).2.1 rfl⟩

/-! ### Claim C5 -/

/-- C5: when no enabled integration row exists for the store (no row at all,
or only disabled rows), or the found row's `webhook_url` is NULL or empty,
`trigger_webhook` is a silent no-op: the event table is unchanged and nothing
is dispatched — and, being a total function returning the no-op outcome, no
error is raised to the caller. -/
theorem c5_trigger_noop (ints : List StoreIntegration) (events : EventStore)
    (event_type store_id : String) (order_id : Option String)
    (data : Option (List (String × String))) (now : Nat) (nid : String)
    (h : (∀ i ∈ ints, ¬ (i.store_id = store_id ∧ i.integration_enabled = true)) ∨
      (∃ i, lookupIntegration ints store_id = some i ∧
        truthyUrl i.webhook_url = false)) :
    trigger_webhook ints events event_type store_id order_id data now nid =
      { events := events, dispatched := none } := by
  rcases h with h | ⟨i, hi, hu⟩
  · have hnone : lookupIntegration ints store_id = none := by
      apply List.find?_eq_none.mpr
      intro i hi
      simpa only [Bool.and_eq_true, beq_iff_eq] using h i hi
    simp [trigger_webhook, hnone]
  · simp [trigger_webhook, hi, hu]

/-- Witness for C5 at a concrete input: an empty integration table. -/
theorem c5_trigger_noop_witness :
    (∀ i ∈ ([] : List StoreIntegration),
      ¬ (i.store_id = "s1" ∧ i.integration_enabled = true)) ∧
    trigger_webhook [] [] ("orders.notification") ("s1") none none 0 ("evt_9")
      = { events := [], dispatched := none } :=
  ⟨by simp,
    c5_trigger_noop [] [] ("orders.notification") ("s1") none none 0 ("evt_9")
      (Or.inl (by simp))⟩

/-! ### Claim C6 -/

/-- C6 (amended): with an enabled integration and a truthy webhook URL, the
three gated event types (`orders.release` via `order_release_webhooks`,
`orders.scheduled.notification` via `schedule_order_webhooks`,
`delivery.state_changed` via `delivery_status_webhooks`) are delivered exactly
when their flag is present with a truthy `is_enabled` — so the call is a
no-op exactly when `categoryEnabled` is false, which covers both an explicitly
disabled flag and an absent category or `is_enabled` key (gated categories
are opt-in); every other event type is unconditionally enabled.  The original
claim's "no-op exactly when explicitly disabled" is refuted by an absent key
(see the counterexample). -/
theorem c6_category_gating (ints : List StoreIntegration) (events : EventStore)
    (sid : String) (oid : Option String)
    (data : Option (List (String × String))) (now : Nat) (nid : String)
    (integ : StoreIntegration)
    (hlook : lookupIntegration ints sid = some integ)
    (hurl : truthyUrl integ.webhook_url = true) :
    (((trigger_webhook ints events ("orders.release") sid oid data now
        nid).events = events ∧
      (trigger_webhook ints events ("orders.release") sid oid data now
        nid).dispatched = none) ↔
      categoryEnabled (integ.webhooks_config.getD [])
        ("order_release_webhooks") = false) ∧
    (((trigger_webhook ints events ("orders.scheduled.notification") sid oid
        data now nid).events = events ∧
      (trigger_webhook ints events ("orders.scheduled.notification") sid oid
        data now nid).dispatched = none) ↔
      categoryEnabled (integ.webhooks_config.getD [])
        ("schedule_order_webhooks") = false) ∧
    (((trigger_webhook ints events ("delivery.state_changed") sid oid data now
        nid).events = events ∧
      (trigger_webhook ints events ("delivery.state_changed") sid oid data now
        nid).dispatched = none) ↔
      categoryEnabled (integ.webhooks_config.getD [])
        ("delivery_status_webhooks") = false) ∧
    (∀ et : String, et ≠ "orders.release" →
      et ≠ "orders.scheduled.notification" → et ≠ "delivery.state_changed" →
      ∃ ev, (trigger_webhook ints events et sid oid data now nid).events =
          events ++ [ev] ∧
        (trigger_webhook ints events et sid oid data now nid).dispatched =
          some (integ.webhook_url.getD "", ev.payload)) := by
  refine ⟨?_, ?_, ?_, ?_⟩
  · by_cases hc : categoryEnabled (integ.webhooks_config.getD [])
        ("order_release_webhooks") = true
    · simp [trigger_webhook, hlook, hurl, gateAllows, hc]
    · simp only [Bool.not_eq_true] at hc
      simp [trigger_webhook, hlook, hurl, gateAllows, hc]
  · by_cases hc : categoryEnabled (integ.webhooks_config.getD [])
        ("schedule_order_webhooks") = true
    · simp [trigger_webhook, hlook, hurl, gateAllows, hc]
    · simp only [Bool.not_eq_true] at hc
      simp [trigger_webhook, hlook, hurl, gateAllows, hc]
  · by_cases hc : categoryEnabled (integ.webhooks_config.getD [])
        ("delivery_status_webhooks") = true
    · simp [trigger_webhook, hlook, hurl, gateAllows, hc]
    · simp only [Bool.not_eq_true] at hc
      simp [trigger_webhook, hlook, hurl, gateAllows, hc]
  · intro et h1 h2 h3
    have hb1 : (et == "orders.release") = false := beq_eq_false_iff_ne.mpr h1
    have hb2 : (et == "orders.scheduled.notification") = false :=
      beq_eq_false_iff_ne.mpr h2
    have hb3 : (et == "delivery.state_changed") = false :=
      beq_eq_false_iff_ne.mpr h3
    refine ⟨{ event_id := nid, event_type := et, store_id := sid, order_id := oid, payload := buildPayload et sid oid data now nid, webhook_url := integ.webhook_url.getD "", status := .pending, attempts := 0, last_attempt_at := none, next_retry_at := none, created_at := now }, ?_, ?_⟩
    · simp [trigger_webhook, hlook, hurl, gateAllows, hb1, hb2, hb3]
    · simp [trigger_webhook, hlook, hurl, gateAllows, hb1, hb2, hb3]

/-- Witness for C6 at a concrete input: the integration `cInt` (empty config)
no-ops on `orders.release`; its `orders.notification` events fire. -/
theorem c6_category_gating_witness :
    lookupIntegration [cInt] ("s1") = some cInt ∧
    (((trigger_webhook [cInt] [] ("orders.release") ("s1") none none 0
        ("evt_9")).events = [] ∧
      (trigger_webhook [cInt] [] ("orders.release") ("s1") none none 0
        ("evt_9")).dispatched = none) ↔
      categoryEnabled (cInt.webhooks_config.getD [])
        ("order_release_webhooks") = false) :=
  ⟨rfl,
    (c6_category_gating [cInt] [] ("s1") none none 0 ("evt_9") cInt rfl
      rfl).1⟩

/-- C6 (counterexample): an enabled integration with a webhook URL whose
`webhooks_config` is the empty object — nothing is explicitly disabled, the
`order_release_webhooks` key is simply absent — still no-ops on
`orders.release`: absence of the flag, not only explicit disablement,
suppresses the event. -/
theorem c6_absent_flag_cex :
    cInt.webhooks_config = some [] ∧
    List.lookup ("order_release_webhooks") ([] : List (String × CatFlag))
      = none ∧
    cInt.integration_enabled = true ∧
    truthyUrl cInt.webhook_url = true ∧
    trigger_webhook [cInt] [] ("orders.release") ("s1") none none 0 ("evt_9")
      = { events := [], dispatched := none } :=
  ⟨rfl, rfl, rfl, rfl, rfl⟩

/-! ### Claim C7 -/

/-- C7 (amended): every POST issued by a delivery chain goes to the chain's
url, carries the serialized stored payload as its JSON body, a `Content-Type:
application/json` header, the signature header — named `X-Uber-Signature`,
not `X-Signature` as the original claim states — holding the HMAC-SHA256 hex
digest of the serialized payload keyed with the shared `WEBHOOK_SECRET`, and
uses the bounded 10-second client timeout. -/
theorem c7_request_format (hmacHex : String → String → String)
    (oracle : Nat → Outcome) (db : EventStore) (now : Nat)
    (eid url : String) (p : Payload) (attempt : Nat) :
    (∀ r ∈ (send_webhook_with_retry hmacHex oracle db now eid url p
        attempt).posts,
      r.url = url ∧ r.body = dumpsPayload p ∧
      r.contentType = "application/json" ∧
      r.sigHeader = ("X-Uber-Signature",
        create_webhook_signature hmacHex (dumpsPayload p) WEBHOOK_SECRET) ∧
      r.timeoutSecs = 10) ∧
    (∀ payloadStr secret : String,
      create_webhook_signature hmacHex payloadStr secret =
        hmacHex secret payloadStr) := by
  refine ⟨?_, fun _ _ => rfl⟩
  intro r hr
  rw [send_posts_eq hmacHex oracle db now eid url p attempt r hr]
  exact ⟨rfl, rfl, rfl, rfl, rfl⟩

/-- Witness for C7 at a concrete input: the sole POST of a first-attempt
success chain. -/
theorem c7_request_format_witness :
    mkWebhookRequest hmac0 ("http://x") p0 ∈
      (send_webhook_with_retry hmac0 oracle200 [e0] 0 ("evt_1") ("http://x")
        p0 1).posts ∧
    ((mkWebhookRequest hmac0 ("http://x") p0).url = "http://x" ∧
     (mkWebhookRequest hmac0 ("http://x") p0).body = dumpsPayload p0 ∧
     (mkWebhookRequest hmac0 ("http://x") p0).contentType =
       "application/json" ∧
     (mkWebhookRequest hmac0 ("http://x") p0).sigHeader =
       ("X-Uber-Signature",
         create_webhook_signature hmac0 (dumpsPayload p0) WEBHOOK_SECRET) ∧
     (mkWebhookRequest hmac0 ("http://x") p0).timeoutSecs = 10) :=
  ⟨by simp [send_webhook_with_retry, webhookAttempt, isSuccess, oracle200,
      max_attempts, markDelivered, updateWhere, e0, p0],
    (c7_request_format hmac0 oracle200 [e0] 0 ("evt_1") ("http://x") p0 1).1 _
      (by simp [send_webhook_with_retry, webhookAttempt, isSuccess, oracle200,
        max_attempts, markDelivered, updateWhere, e0, p0])⟩

/-- C7 (counterexample): the signature header the code issues is named
`X-Uber-Signature` (app.py line 312), not `X-Signature` as the claim says. -/
theorem c7_header_name_cex :
    (send_webhook_with_retry hmac0 oracle200 [e0] 0 ("evt_1") ("http://x")
      p0 1).posts.head? = some (mkWebhookRequest hmac0 ("http://x") p0) ∧
    (mkWebhookRequest hmac0 ("http://x") p0).sigHeader.1 =
      "X-Uber-Signature" ∧
    (mkWebhookRequest hmac0 ("http://x") p0).sigHeader.1 ≠ "X-Signature" := by
  refine ⟨?_, rfl, by decide⟩
  simp [send_webhook_with_retry, webhookAttempt, isSuccess, oracle200,
    max_attempts, markDelivered, updateWhere, e0, p0]

/-! ### Claim C8 -/

/-- C8: a trigger invocation that passes all configuration checks appends —
before the delivery hand-off, per `trigger_trace` — exactly one new row
whose key is the freshly generated id (unique in the table), with
`status = pending` and `attempts = 0` (the schema defaults) and NULL
timestamps, and whose payload has the canonical shape: the fresh `event_id`,
the given `event_type`, `event_time` = current epoch seconds, `resource_id` =
the order id when one is present (non-empty) else the store id, and a `meta`
object with `user_id` = the store id, the same `resource_id`, and the
caller-supplied `status`. -/
theorem c8_canonical_payload (ints : List StoreIntegration)
    (events : EventStore) (et sid : String) (oid : Option String)
    (data : Option (List (String × String))) (now : Nat) (nid : String)
    (delay : Nat) (integ : StoreIntegration)
    (hlook : lookupIntegration ints sid = some integ)
    (hurl : truthyUrl integ.webhook_url = true)
    (hgate : gateAllows (integ.webhooks_config.getD []) et = true)
    (hfresh : ∀ e ∈ events, e.event_id ≠ nid)
    (hoid : oid = none ∨ ∃ s, oid = some s ∧ s ≠ "") :
    ∃ ev,
      (trigger_webhook ints events et sid oid data now nid).events =
        events ++ [ev] ∧
      ev.event_id = nid ∧ (∀ e ∈ events, e.event_id ≠ ev.event_id) ∧
      ev.status = WStatus.pending ∧ ev.attempts = 0 ∧ ev.created_at = now ∧
      ev.last_attempt_at = none ∧ ev.next_retry_at = none ∧
      ev.payload.event_id = nid ∧ ev.payload.event_type = et ∧
      ev.payload.event_time = now ∧
      ev.payload.resource_id = (match oid with | some o => o | none => sid) ∧
      ev.payload.meta.user_id = sid ∧
      ev.payload.meta.resource_id = ev.payload.resource_id ∧
      ev.payload.meta.status = (data.bind fun d => List.lookup ("status") d) ∧
      (trigger_webhook ints events et sid oid data now nid).dispatched =
        some (integ.webhook_url.getD "", ev.payload) ∧
      trigger_trace ints events et sid oid data now nid delay =
        [TriggerOp.sleepOp delay, TriggerOp.readIntegration,
         TriggerOp.insertEvent, TriggerOp.dispatchSend] := by
  have hres : trigger_webhook ints events et sid oid data now nid =
      { events := events ++ [{ event_id := nid, event_type := et, store_id := sid, order_id := oid, payload := buildPayload et sid oid data now nid, webhook_url := integ.webhook_url.getD "", status := .pending, attempts := 0, last_attempt_at := none, next_retry_at := none, created_at := now }], dispatched := some (integ.webhook_url.getD "", buildPayload et sid oid data now nid) } := by
    simp [trigger_webhook, hlook, hurl, hgate]
  refine ⟨_, congrArg TriggerOutcome.events hres, rfl, ?_, rfl, rfl, rfl, rfl,
    rfl, rfl, rfl, rfl, ?_, rfl, rfl, rfl,
    congrArg TriggerOutcome.dispatched hres, ?_⟩
  · intro e he
    exact hfresh e he
  · rcases hoid with rfl | ⟨s, rfl, hs⟩
    · rfl
    · have hne : s.isEmpty = false := by
        rcases hb : s.isEmpty with _ | _
        · rfl
        · exact absurd ((String.isEmpty_iff s).mp hb) hs
      simp [buildPayload, pyOr, hne]
  · simp [trigger_trace, hres]

/-- Witness for C8 at a concrete input: triggering `orders.notification` for
the integration `cInt`. -/
theorem c8_canonical_payload_witness :
    lookupIntegration [cInt] ("s1") = some cInt ∧
    ∃ ev,
      (trigger_webhook [cInt] [] ("orders.notification") ("s1") none none 7
        ("evt_9")).events = [] ++ [ev] ∧
      ev.event_id = "evt_9" ∧ (∀ e ∈ ([] : EventStore), e.event_id ≠ ev.event_id) ∧
      ev.status = WStatus.pending ∧ ev.attempts = 0 ∧ ev.created_at = 7 ∧
      ev.last_attempt_at = none ∧ ev.next_retry_at = none ∧
      ev.payload.event_id = "evt_9" ∧
      ev.payload.event_type = "orders.notification" ∧
      ev.payload.event_time = 7 ∧
      ev.payload.resource_id =
        (match (none : Option String) with | some o => o | none => "s1") ∧
      ev.payload.meta.user_id = "s1" ∧
      ev.payload.meta.resource_id = ev.payload.resource_id ∧
      ev.payload.meta.status =
        ((none : Option (List (String × String))).bind fun d =>
          List.lookup ("status") d) ∧
      (trigger_webhook [cInt] [] ("orders.notification") ("s1") none none 7
        ("evt_9")).dispatched = some (cInt.webhook_url.getD "", ev.payload) ∧
      trigger_trace [cInt] [] ("orders.notification") ("s1") none none 7
        ("evt_9") 1 =
        [TriggerOp.sleepOp 1, TriggerOp.readIntegration,
         TriggerOp.insertEvent, TriggerOp.dispatchSend] :=
  ⟨rfl,
    c8_canonical_payload [cInt] [] ("orders.notification") ("s1") none none 7
      ("evt_9") 1 cInt rfl rfl (by decide) (by simp) (Or.inl rfl)⟩

/-! ### Claim C9 -/

/-- C9 (amended): every update that writes status retrying sets
`next_retry_at` in the same commit, so "retrying ⇒ next_retry_at set" is
preserved by every attempt update; fresh rows are inserted pending with a
NULL `next_retry_at`; and the manual-retry reset does not touch the column.
The converse direction of the original claim fails: the delivered and failed
updates leave `next_retry_at` unchanged rather than clearing it, so a
terminal row that has retried keeps a stale non-NULL `next_retry_at` (see the
counterexample). -/
theorem c9_next_retry_invariant (hmacHex : String → String → String)
    (out : Outcome) (db : EventStore) (now : Nat) (eid url : String)
    (p : Payload) (a : Nat) :
    ((∀ e ∈ db, e.status = WStatus.retrying → e.next_retry_at ≠ none) →
      ∀ e ∈ (webhookAttempt hmacHex out db now eid url p a).db,
        e.status = WStatus.retrying → e.next_retry_at ≠ none) ∧
    ((markDelivered db eid a).map (fun x => x.next_retry_at) =
      db.map (fun x => x.next_retry_at)) ∧
    ((markFailed db eid a).map (fun x => x.next_retry_at) =
      db.map (fun x => x.next_retry_at)) ∧
    ((retry_webhook db eid).1.map (fun x => x.next_retry_at) =
      db.map (fun x => x.next_retry_at)) ∧
    (∀ ints events et sid oid data nid,
      ∀ e ∈ (trigger_webhook ints events et sid oid data now nid).events,
        e ∈ events ∨ (e.status = WStatus.pending ∧ e.next_retry_at = none)) := by
  refine ⟨?_, ?_, ?_, ?_, ?_⟩
  · intro hinv e he
    simp only [webhookAttempt] at he
    by_cases hs : isSuccess out = true
    · rw [if_pos hs] at he
      exact updateWhere_pres _ db eid _ hinv (fun y hy => by simp) e he
    · rw [if_neg hs] at he
      by_cases hlt : a < max_attempts
      · rw [if_pos hlt] at he
        exact updateWhere_pres _ db eid _ hinv (fun y hy => by simp) e he
      · rw [if_neg hlt] at he
        exact updateWhere_pres _ db eid _ hinv (fun y hy => by simp) e he
  · exact updateWhere_map_eq _ db eid _ (fun x => rfl)
  · exact updateWhere_map_eq _ db eid _ (fun x => rfl)
  · rcases hf : db.find? (fun x => x.event_id == eid) with _ | e
    · simp [retry_webhook, hf]
    · simp only [retry_webhook, hf]
      exact updateWhere_map_eq _ db eid _ (fun x => rfl)
  · intro ints events et sid oid data nid e he
    rcases hl : lookupIntegration ints sid with _ | integ
    · simp only [trigger_webhook, hl] at he
      exact Or.inl he
    · simp only [trigger_webhook, hl] at he
      by_cases hu : (!truthyUrl integ.webhook_url) = true
      · rw [if_pos hu] at he
        exact Or.inl he
      · rw [if_neg hu] at he
        by_cases hg : (!gateAllows (integ.webhooks_config.getD []) et) = true
        · rw [if_pos hg] at he
          exact Or.inl he
        · rw [if_neg hg] at he
          rcases List.mem_append.mp he with h | h
          · exact Or.inl h
          · rcases List.mem_singleton.mp h with rfl
            exact Or.inr ⟨rfl, rfl⟩

/-- Witness for C9 at a concrete input: the invariant is preserved by a
failing attempt on the fresh row `e0`. -/
theorem c9_next_retry_invariant_witness :
    (∀ e ∈ [e0], e.status = WStatus.retrying → e.next_retry_at ≠ none) ∧
    (∀ e ∈ (webhookAttempt hmac0 (Outcome.response 500) [e0] 0 ("evt_1")
        ("http://x") p0 1).db,
      e.status = WStatus.retrying → e.next_retry_at ≠ none) :=
  ⟨by decide,
    (c9_next_retry_invariant hmac0 (Outcome.response 500) [e0] 0 ("evt_1")
      ("http://x") p0 1).1 (by decide)⟩

/-- C9 (counterexample): the fresh row `e0` (pending, `next_retry_at` NULL)
run through a chain of three failures ends as `eFailedStale`: status failed
with `next_retry_at = 6` still set by attempt 2's retrying update — the
failed transition does not clear the column, refuting both "next_retry_at is
set only if status is retrying" and "every transition into failed leaves
next_retry_at unset". -/
theorem c9_stale_next_retry_cex :
    e0.status = WStatus.pending ∧ e0.next_retry_at = none ∧
    (send_webhook_with_retry hmac0 oracle500 [e0] 0 ("evt_1") ("http://x")
      p0 1).db = [eFailedStale] ∧
    eFailedStale.status = WStatus.failed ∧
    eFailedStale.next_retry_at = some 6 := by
  refine ⟨rfl, rfl, ?_, rfl, rfl⟩
  simp [send_webhook_with_retry, webhookAttempt, markRetrying, markFailed,
    markDelivered, updateWhere, isSuccess, max_attempts, mkWebhookRequest,
    oracle500, hmac0, e0, p0, eFailedStale]

/-! ### Claim C10 -/

/-- C10: the artificial delay is awaited before anything else in
`trigger_webhook`: the invocation's observable trace starts with the sleep,
then the single integration read, and — only on the firing path — the insert
followed by the delivery hand-off, so during the delay no event row for the
action exists and no table mutation occurs; and the invocation operates on
the world as of `t0 + delay`: two worlds that agree at that instant (however
much they differ at invocation time `t0`) produce identical outcomes. -/
theorem c10_delay_before_read
    (world1 world2 : Nat → List StoreIntegration × EventStore)
    (t0 delay : Nat) (et sid : String) (oid : Option String)
    (data : Option (List (String × String))) (nid : String)
    (hagree : world1 (t0 + delay) = world2 (t0 + delay)) :
    trigger_webhook_timed world1 t0 delay et sid oid data nid =
      trigger_webhook_timed world2 t0 delay et sid oid data nid ∧
    trigger_webhook_timed world1 t0 delay et sid oid data nid =
      trigger_webhook (world1 (t0 + delay)).1 (world1 (t0 + delay)).2 et sid
        oid data (t0 + delay) nid ∧
    (∀ ints events now,
      ∃ tail,
        trigger_trace ints events et sid oid data now nid delay =
          TriggerOp.sleepOp delay :: TriggerOp.readIntegration :: tail ∧
        (tail = [] ∨
          tail = [TriggerOp.insertEvent, TriggerOp.dispatchSend])) := by
  refine ⟨?_, rfl, ?_⟩
  · unfold trigger_webhook_timed
    rw [hagree]
  · intro ints events now
    by_cases hd : (trigger_webhook ints events et sid oid data now
        nid).dispatched.isSome = true
    · refine ⟨[TriggerOp.insertEvent, TriggerOp.dispatchSend], ?_, Or.inr rfl⟩
      simp [trigger_trace, hd]
    · simp only [Bool.not_eq_true] at hd
      refine ⟨[], ?_, Or.inl rfl⟩
      simp [trigger_trace, hd]

/-- Witness for C10 at a concrete input: two worlds that differ at the
invocation time but agree at `t0 + delay` yield the same outcome. -/
theorem c10_delay_before_read_witness :
    ((fun t => if t = 5 then ([cInt], ([] : EventStore)) else ([], []))
        (2 + 3) =
      (fun _ => ([cInt], ([] : EventStore))) (2 + 3)) ∧
    trigger_webhook_timed
        (fun t => if t = 5 then ([cInt], ([] : EventStore)) else ([], [])) 2 3
        ("orders.notification") ("s1") none none ("evt_9") =
      trigger_webhook_timed (fun _ => ([cInt], ([] : EventStore))) 2 3
        ("orders.notification") ("s1") none none ("evt_9") :=
  ⟨by norm_num,
    (c10_delay_before_read
      (fun t => if t = 5 then ([cInt], ([] : EventStore)) else ([], []))
      (fun _ => ([cInt], ([] : EventStore))) 2 3 ("orders.notification")
      ("s1") none none ("evt_9") (by norm_num)).1⟩

end UberMock
